import Mathlib

/-!
Verification of the FrozzenBot order-fulfillment backend's Order Lifecycle
Workflow Engine against its natural-language specification.

The definitions below are a shallow embedding of the Python sources:
  * `backend/app/models/order.py`               (Order model, is_overdue, ...)
  * `backend/app/models/order_status_history.py` (OrderStatusHistory)
  * `backend/app/services/order_workflow.py`    (OrderWorkflow engine)
  * `backend/app/services/order.py`             (OrderService.cancel_order)
  * `backend/app/utils/scheduler.py`            (NotificationScheduler)
  * `backend/app/services/notification.py`      (NotificationService)

Modelling conventions:
  * `datetime` values are absolute instants measured in whole seconds (`Int`);
    `timedelta(minutes=m)` is `60 * m` seconds.  Python's
    `int(delta.total_seconds() / 60)` truncates toward zero, which is
    `Int.tdiv _ 60`.
  * Python calls `datetime.utcnow()` several times inside one transition; all
    of those reads are represented by the single parameter `now`, the instant
    at which the operation runs.
  * nullable columns are `Option _`; Python truthiness on an `int` column is
    "present and nonzero", on a `datetime`/object column it is "present".
  * SQLAlchemy sessions are made explicit: the mutable store is a `Db` value
    (orders plus the append-only history table) threaded through operations,
    and a raised Python exception is `Except.error` — raised strictly before
    any of the field assignments it cuts off, exactly as in the source order
    of statements.
  * JSON dicts (`automation_flags`, `workflow_metadata`) are association
    lists updated in place, mirroring insertion-ordered Python dicts.
-/

/-- `OrderStatus` enum from `models/order.py`. -/
inductive OrderStatus where
  | pending
  | confirmed
  | preparing
  | ready
  | completed
  | cancelled
  | refunded
  | failed
deriving DecidableEq, Repr, Fintype

/-- The `.value` string of each `OrderStatus` member. -/
def OrderStatus.value : OrderStatus → String
  | .pending => "pending"
  | .confirmed => "confirmed"
  | .preparing => "preparing"
  | .ready => "ready"
  | .completed => "completed"
  | .cancelled => "cancelled"
  | .refunded => "refunded"
  | .failed => "failed"

/-- `OrderPriority` enum from `models/order.py`. -/
inductive OrderPriority where
  | low
  | normal
  | high
  | vip
deriving DecidableEq, Repr

/-- `StatusChangeReason` enum from `models/order_status_history.py`. -/
inductive StatusChangeReason where
  | automatic
  | manualAdmin
  | paymentSuccess
  | paymentFailed
  | customerRequest
  | kitchenReady
  | deliveryCompleted
  | timeout
  | error
  | refundProcessed
  | cancelledByAdmin
  | cancelledByCustomer
deriving DecidableEq, Repr

/-- Values stored in the free-form `workflow_metadata` JSON dict: the source
stores ISO-format time strings (represented here by the underlying instant),
integer ids and plain strings. -/
inductive MetaValue where
  | i (v : Int)
  | s (v : String)
deriving DecidableEq, Repr

/-- `Order` row from `models/order.py`, restricted to the columns the
workflow engine, timing calculator and cancellation path read or write.
Money amounts (`refund_amount`) are modelled as integal currency units. -/
structure Order where
  id : Nat
  userId : Nat
  status : OrderStatus
  priority : OrderPriority
  paymentMethod : String
  deliveryType : String
  createdAt : Int
  statusPendingAt : Int
  statusConfirmedAt : Option Int
  statusPreparingAt : Option Int
  statusReadyAt : Option Int
  statusCompletedAt : Option Int
  statusCancelledAt : Option Int
  estimatedPreparationTime : Option Int
  estimatedDeliveryTime : Option Int
  actualPreparationStart : Option Int
  actualPreparationEnd : Option Int
  deliveryScheduledAt : Option Int
  deliveryCompletedAt : Option Int
  preparationDuration : Option Int
  totalDuration : Option Int
  cancellationReason : Option String
  cancelledByUserId : Option Nat
  refundAmount : Option Nat
  courierAssigned : Option String
  automationFlags : List (String × Bool)
  workflowMetadata : List (String × MetaValue)
  isDeleted : Bool
deriving DecidableEq, Repr

/-- `OrderStatusHistory` row from `models/order_status_history.py`, restricted
to the columns the workflow engine writes.  `id` is the database-assigned
primary key (assigned at commit as the running count of history rows). -/
structure OrderStatusHistory where
  id : Nat
  orderId : Nat
  fromStatus : Option String
  toStatus : String
  reason : StatusChangeReason
  changedByUserId : Option Nat
  changedAt : Int
  notes : Option String
  systemMessage : Option String
  durationFromPrevious : Option Int
deriving DecidableEq, Repr

/-- The transactional store visible to the workflow engine: the `orders`
table and the append-only `order_status_history` table. -/
structure Db where
  orders : List Order
  history : List OrderStatusHistory
deriving DecidableEq, Repr

/-- Python truthiness of a nullable `int` column: present and nonzero. -/
def intOptTruthy : Option Int → Bool
  | none => false
  | some n => decide (n ≠ 0)

/-- Python truthiness of a nullable integer id column: present and nonzero. -/
def natOptTruthy : Option Nat → Bool
  | none => false
  | some n => decide (n ≠ 0)

/-- Python `int(delta.total_seconds() / 60)` on a whole-second delta:
truncating division by 60. -/
def wholeMinutes (deltaSeconds : Int) : Int :=
  Int.tdiv deltaSeconds 60

/-- `OrderWorkflow.valid_transitions` from `services/order_workflow.py`
(lines 46-70): the per-status set of allowed target statuses. -/
def valid_transitions : OrderStatus → List OrderStatus
  | .pending => [.confirmed, .cancelled, .failed]
  | .confirmed => [.preparing, .cancelled]
  | .preparing => [.ready, .cancelled]
  | .ready => [.completed, .cancelled]
  | .completed => [.refunded]
  | .cancelled => [.refunded]
  | .failed => [.pending, .cancelled]
  | .refunded => []

/-- The error raised by `OrderWorkflow._validate_transition`
(`StatusTransitionError`): its message carries the attempted edge and the
list of valid target statuses for the source status. -/
inductive WorkflowErr where
  | statusTransition (fromStatus toStatus : OrderStatus) (allowed : List OrderStatus)
deriving DecidableEq, Repr

/-- `OrderWorkflow._validate_transition` (lines 170-180): trivially valid if
`from == to`, otherwise the target must be in the transition-table row of the
source; on failure raises `StatusTransitionError` carrying the allowed set. -/
def validate_transition (fromStatus toStatus : OrderStatus) : Except WorkflowErr Unit :=
  if fromStatus = toStatus then
    .ok ()
  else if toStatus ∈ valid_transitions fromStatus then
    .ok ()
  else
    .error (.statusTransition fromStatus toStatus (valid_transitions fromStatus))

/-- Transition table written from the SPEC's words (section 4.1), for
comparison with the source's `valid_transitions`:
Pending -> Confirmed, Cancelled, Failed; Confirmed -> Preparing, Cancelled;
Preparing -> Ready, Cancelled; Ready -> Completed, Cancelled;
Completed -> Refunded; Cancelled -> Refunded; Failed -> Pending, Cancelled;
Refunded -> none. -/
def specTransitionTable (fromStatus toStatus : OrderStatus) : Bool :=
  match fromStatus, toStatus with
  | .pending, .confirmed | .pending, .cancelled | .pending, .failed => true
  | .confirmed, .preparing | .confirmed, .cancelled => true
  | .preparing, .ready | .preparing, .cancelled => true
  | .ready, .completed | .ready, .cancelled => true
  | .completed, .refunded => true
  | .cancelled, .refunded => true
  | .failed, .pending | .failed, .cancelled => true
  | _, _ => false

deriving instance DecidableEq for Except

/-- C1: For every pair of order statuses `(from, to)`, the Workflow Engine's
transition validation succeeds exactly when `from == to` or `to` is in the
spec's transition-table row for `from`; for every other pair it fails with an
`InvalidTransition` error that carries the allowed target statuses for
`from`, and those carried statuses are exactly the spec table's row. -/
theorem validate_transition_matches_spec_table :
    ∀ fromStatus toStatus : OrderStatus,
      (validate_transition fromStatus toStatus = .ok () ↔
        (fromStatus = toStatus ∨ specTransitionTable fromStatus toStatus = true)) ∧
      (validate_transition fromStatus toStatus = .ok () ∨
        validate_transition fromStatus toStatus =
          .error (.statusTransition fromStatus toStatus (valid_transitions fromStatus))) ∧
      (∀ s : OrderStatus, s ∈ valid_transitions fromStatus ↔ specTransitionTable fromStatus s = true) := by
  decide

/-- `OrderWorkflow.default_preparation_times` (lines 83-88): default
preparation time in minutes by priority. -/
def default_preparation_times : OrderPriority → Int
  | .vip => 15
  | .high => 25
  | .normal => 35
  | .low => 45

/-- Insertion-ordered dict assignment `d[k] = v`: replace the value at an
existing key in place, else append the new key. -/
def assocSet {α : Type} : List (String × α) → String → α → List (String × α)
  | [], k, v => [(k, v)]
  | (k₀, v₀) :: rest, k, v =>
    if k₀ = k then (k, v) :: rest else (k₀, v₀) :: assocSet rest k v

/-- `Order.set_automation_flag` from `models/order.py`. -/
def Order.setAutomationFlag (o : Order) (flag : String) (value : Bool) : Order :=
  { o with automationFlags := assocSet o.automationFlags flag value }

/-- `Order.set_workflow_metadata_value` from `models/order.py`. -/
def Order.setWorkflowMetadataValue (o : Order) (key : String) (value : MetaValue) : Order :=
  { o with workflowMetadata := assocSet o.workflowMetadata key value }

/-- `OrderWorkflow._auto_calculate_timing_fields` (lines 203-241): derived
timing fields set on entering confirmed / preparing / ready / completed. -/
def auto_calculate_timing_fields (order : Order) (status : OrderStatus) (now : Int) : Order :=
  match status with
  | .confirmed =>
    let order :=
      if intOptTruthy order.estimatedPreparationTime then order
      else { order with
               estimatedPreparationTime := some (default_preparation_times order.priority) }
    if intOptTruthy order.estimatedPreparationTime then
      match order.estimatedPreparationTime with
      | some prep => { order with estimatedDeliveryTime := some (now + 60 * prep) }
      | none => order
    else order
  | .preparing =>
    if order.actualPreparationStart.isSome then order
    else { order with actualPreparationStart := some now }
  | .ready =>
    let order :=
      if order.actualPreparationEnd.isSome then order
      else { order with actualPreparationEnd := some now }
    match order.actualPreparationStart with
    | some start =>
      if intOptTruthy order.preparationDuration then order
      else { order with preparationDuration := some (wholeMinutes (now - start)) }
    | none => order
  | .completed =>
    let order :=
      if intOptTruthy order.totalDuration then order
      else { order with totalDuration := some (wholeMinutes (now - order.createdAt)) }
    if order.deliveryType = "delivery" then { order with deliveryCompletedAt := some now }
    else order
  | _ => order

/-- `OrderWorkflow._update_status_timestamps` (lines 182-201): stamp the
status-specific timestamp column, then auto-calculate timing fields when
requested. -/
def update_status_timestamps (order : Order) (status : OrderStatus)
    (autoCalculate : Bool) (now : Int) : Order :=
  let order :=
    match status with
    | .pending => { order with statusPendingAt := now }
    | .confirmed => { order with statusConfirmedAt := some now }
    | .preparing => { order with statusPreparingAt := some now }
    | .ready => { order with statusReadyAt := some now }
    | .completed => { order with statusCompletedAt := some now }
    | .cancelled => { order with statusCancelledAt := some now }
    | _ => order
  if autoCalculate then auto_calculate_timing_fields order status now else order

/-- One step of selecting the row with the greatest `changed_at` (the SQL
`ORDER BY changed_at DESC LIMIT 1`); among equal timestamps the row kept is
the earliest inserted, one of the orderings the unspecified SQL tie-break
admits. -/
def pickLater (best : Option OrderStatusHistory) (h : OrderStatusHistory) :
    Option OrderStatusHistory :=
  match best with
  | none => some h
  | some b => if h.changedAt > b.changedAt then some h else some b

/-- `OrderWorkflow._get_last_status_history` (lines 243-251): the history
record for the order with the greatest `changed_at`. -/
def get_last_status_history (history : List OrderStatusHistory) (orderId : Nat) :
    Option OrderStatusHistory :=
  (history.filter (fun h => decide (h.orderId = orderId))).foldl pickLater none

/-- `OrderWorkflow._schedule_automatic_transitions` (lines 296-300). -/
def schedule_automatic_transitions (order : Order) (now : Int) : Order :=
  (order.setAutomationFlag "auto_transition_scheduled" true).setWorkflowMetadataValue
    "last_auto_check" (.i now)

/-- `OrderWorkflow._update_workflow_metadata` (lines 302-311). -/
def update_workflow_metadata (order : Order) (newStatus : OrderStatus)
    (historyId : Nat) (now : Int) : Order :=
  ((order.setWorkflowMetadataValue ("status_" ++ newStatus.value ++ "_at") (.i now)).setWorkflowMetadataValue
      "last_status_change_id" (.i historyId)).setWorkflowMetadataValue
    "workflow_version" (.s "1.0")

/-- Status-specific hooks `_on_order_confirmed` .. `_on_order_cancelled`
(lines 313-339), dispatched as in `_execute_post_transition_hooks`. -/
def status_specific_hooks (order : Order) (newStatus : OrderStatus) : Order :=
  match newStatus with
  | .confirmed =>
    (order.setAutomationFlag "kitchen_notified" false).setAutomationFlag
      "auto_preparing_eligible" true
  | .preparing =>
    (order.setAutomationFlag "kitchen_notified" true).setAutomationFlag
      "preparation_started" true
  | .ready =>
    if order.deliveryType = "pickup" then
      order.setAutomationFlag "auto_complete_eligible" true
    else order
  | .completed =>
    (order.setAutomationFlag "workflow_completed" true).setAutomationFlag
      "feedback_eligible" true
  | .cancelled =>
    (order.setAutomationFlag "workflow_cancelled" true).setAutomationFlag
      "refund_eligible" true
  | _ => order

/-- `OrderWorkflow._execute_post_transition_hooks` (lines 266-294): runs
after the commit; none of its steps can fail in this model (the Python
wrapper swallows exceptions), and none touches `status`, timestamps or
timing fields. -/
def execute_post_transition_hooks (order : Order) (newStatus : OrderStatus)
    (historyId : Nat) (now : Int) : Order :=
  status_specific_hooks
    (update_workflow_metadata (schedule_automatic_transitions order now) newStatus historyId now)
    newStatus

/-- `OrderWorkflow.transition_status` (lines 90-168), the single-transition
engine.  Inputs are the order being transitioned and the current history
table; the result on success is the updated order, the committed history
record (primary key assigned as the running row count) and the extended
history table.  A raised `StatusTransitionError` is `Except.error`, cutting
the function off before any field assignment, so the caller's order and
history are untouched. -/
def transition_status (order : Order) (history : List OrderStatusHistory)
    (newStatus : OrderStatus) (reason : StatusChangeReason)
    (changedByUserId : Option Nat) (notes systemMessage : Option String)
    (validate autoCalculateTimes : Bool) (now : Int) :
    Except WorkflowErr (Order × OrderStatusHistory × List OrderStatusHistory) :=
  let oldStatus := order.status
  match (if validate then validate_transition oldStatus newStatus else .ok ()) with
  | .error e => .error e
  | .ok () =>
    let durationFromPrevious : Option Int :=
      if oldStatus ≠ newStatus then
        match get_last_status_history history order.id with
        | some last => some (wholeMinutes (now - last.changedAt))
        | none => none
      else none
    let order := { order with status := newStatus }
    let order := update_status_timestamps order newStatus autoCalculateTimes now
    let record : OrderStatusHistory :=
      { id := history.length
        orderId := order.id
        fromStatus := some oldStatus.value
        toStatus := newStatus.value
        reason := reason
        changedByUserId := changedByUserId
        changedAt := now
        notes := notes
        systemMessage := systemMessage
        durationFromPrevious := durationFromPrevious }
    let order := execute_post_transition_hooks order newStatus record.id now
    .ok (order, record, history ++ [record])

/-- A sample pending order used to instantiate general theorems.  Fields are
those of a freshly placed order (`created in Pending by order placement`). -/
def baseOrder : Order :=
  { id := 7
    userId := 3
    status := .pending
    priority := .normal
    paymentMethod := "card"
    deliveryType := "delivery"
    createdAt := 0
    statusPendingAt := 0
    statusConfirmedAt := none
    statusPreparingAt := none
    statusReadyAt := none
    statusCompletedAt := none
    statusCancelledAt := none
    estimatedPreparationTime := none
    estimatedDeliveryTime := none
    actualPreparationStart := none
    actualPreparationEnd := none
    deliveryScheduledAt := none
    deliveryCompletedAt := none
    preparationDuration := none
    totalDuration := none
    cancellationReason := none
    cancelledByUserId := none
    refundAmount := none
    courierAssigned := none
    automationFlags := []
    workflowMetadata := []
    isDeleted := false }

/-- The projection of every field other than `automationFlags` through
`Order.setAutomationFlag` is unchanged (the setter is a single record
update). -/
@[simp] theorem setAutomationFlag_proj (o : Order) (f : String) (v : Bool) :
    (o.setAutomationFlag f v).id = o.id ∧
    (o.setAutomationFlag f v).status = o.status ∧
    (o.setAutomationFlag f v).priority = o.priority ∧
    (o.setAutomationFlag f v).deliveryType = o.deliveryType ∧
    (o.setAutomationFlag f v).estimatedPreparationTime = o.estimatedPreparationTime ∧
    (o.setAutomationFlag f v).estimatedDeliveryTime = o.estimatedDeliveryTime ∧
    (o.setAutomationFlag f v).actualPreparationStart = o.actualPreparationStart ∧
    (o.setAutomationFlag f v).actualPreparationEnd = o.actualPreparationEnd ∧
    (o.setAutomationFlag f v).preparationDuration = o.preparationDuration ∧
    (o.setAutomationFlag f v).totalDuration = o.totalDuration ∧
    (o.setAutomationFlag f v).statusConfirmedAt = o.statusConfirmedAt ∧
    (o.setAutomationFlag f v).createdAt = o.createdAt ∧
    (o.setAutomationFlag f v).isDeleted = o.isDeleted :=
  ⟨rfl, rfl, rfl, rfl, rfl, rfl, rfl, rfl, rfl, rfl, rfl, rfl, rfl⟩

/-- The projection of every field other than `workflowMetadata` through
`Order.setWorkflowMetadataValue` is unchanged. -/
@[simp] theorem setWorkflowMetadataValue_proj (o : Order) (k : String) (v : MetaValue) :
    (o.setWorkflowMetadataValue k v).id = o.id ∧
    (o.setWorkflowMetadataValue k v).status = o.status ∧
    (o.setWorkflowMetadataValue k v).priority = o.priority ∧
    (o.setWorkflowMetadataValue k v).deliveryType = o.deliveryType ∧
    (o.setWorkflowMetadataValue k v).estimatedPreparationTime = o.estimatedPreparationTime ∧
    (o.setWorkflowMetadataValue k v).estimatedDeliveryTime = o.estimatedDeliveryTime ∧
    (o.setWorkflowMetadataValue k v).actualPreparationStart = o.actualPreparationStart ∧
    (o.setWorkflowMetadataValue k v).actualPreparationEnd = o.actualPreparationEnd ∧
    (o.setWorkflowMetadataValue k v).preparationDuration = o.preparationDuration ∧
    (o.setWorkflowMetadataValue k v).totalDuration = o.totalDuration ∧
    (o.setWorkflowMetadataValue k v).statusConfirmedAt = o.statusConfirmedAt ∧
    (o.setWorkflowMetadataValue k v).createdAt = o.createdAt ∧
    (o.setWorkflowMetadataValue k v).isDeleted = o.isDeleted :=
  ⟨rfl, rfl, rfl, rfl, rfl, rfl, rfl, rfl, rfl, rfl, rfl, rfl, rfl⟩

/-- The timing fields, identity and status of an order are untouched by the
post-transition hooks, which only write automation flags and workflow
metadata. -/
theorem execute_post_transition_hooks_fields (o : Order) (ns : OrderStatus)
    (hid : Nat) (now : Int) :
    (execute_post_transition_hooks o ns hid now).id = o.id ∧
    (execute_post_transition_hooks o ns hid now).status = o.status ∧
    (execute_post_transition_hooks o ns hid now).priority = o.priority ∧
    (execute_post_transition_hooks o ns hid now).estimatedPreparationTime = o.estimatedPreparationTime ∧
    (execute_post_transition_hooks o ns hid now).estimatedDeliveryTime = o.estimatedDeliveryTime ∧
    (execute_post_transition_hooks o ns hid now).actualPreparationStart = o.actualPreparationStart ∧
    (execute_post_transition_hooks o ns hid now).actualPreparationEnd = o.actualPreparationEnd ∧
    (execute_post_transition_hooks o ns hid now).preparationDuration = o.preparationDuration ∧
    (execute_post_transition_hooks o ns hid now).totalDuration = o.totalDuration := by
  unfold execute_post_transition_hooks status_specific_hooks update_workflow_metadata
    schedule_automatic_transitions
  cases ns <;> by_cases hd : o.deliveryType = "pickup" <;> simp [hd]

/-- `auto_calculate_timing_fields` preserves the id and the status field. -/
theorem auto_calculate_timing_fields_id_status (o : Order) (st : OrderStatus) (now : Int) :
    (auto_calculate_timing_fields o st now).id = o.id ∧
    (auto_calculate_timing_fields o st now).status = o.status := by
  cases st <;> simp only [auto_calculate_timing_fields] <;>
    repeat' first
      | trivial
      | (constructor <;> rfl)
      | split

/-- `update_status_timestamps` preserves the id and the status field. -/
theorem update_status_timestamps_id_status (o : Order) (st : OrderStatus)
    (a : Bool) (now : Int) :
    (update_status_timestamps o st a now).id = o.id ∧
    (update_status_timestamps o st a now).status = o.status := by
  unfold update_status_timestamps
  cases a
  · cases st <;> simp
  · cases st <;>
      simp only [if_true, Bool.true_eq] <;>
      exact auto_calculate_timing_fields_id_status _ _ _

/-- Unfolding a successful `transition_status` call (validation enabled):
the updated order is the hook-processed, timestamp-stamped order, and the
committed history record has exactly the fields written by the source. -/
theorem transition_status_ok_shape (o : Order) (hist : List OrderStatusHistory)
    (ns : OrderStatus) (r : StatusChangeReason) (uid : Option Nat)
    (n s : Option String) (a : Bool) (now : Int)
    (h1 : validate_transition o.status ns = .ok ()) :
    transition_status o hist ns r uid n s true a now =
      .ok (execute_post_transition_hooks
             (update_status_timestamps { o with status := ns } ns a now) ns hist.length now,
           { id := hist.length
             orderId := o.id
             fromStatus := some o.status.value
             toStatus := ns.value
             reason := r
             changedByUserId := uid
             changedAt := now
             notes := n
             systemMessage := s
             durationFromPrevious :=
               if o.status ≠ ns then
                 match get_last_status_history hist o.id with
                 | some last => some (wholeMinutes (now - last.changedAt))
                 | none => none
               else none },
           hist ++
             [{ id := hist.length
                orderId := o.id
                fromStatus := some o.status.value
                toStatus := ns.value
                reason := r
                changedByUserId := uid
                changedAt := now
                notes := n
                systemMessage := s
                durationFromPrevious :=
                  if o.status ≠ ns then
                    match get_last_status_history hist o.id with
                    | some last => some (wholeMinutes (now - last.changedAt))
                    | none => none
                  else none }]) := by
  simp only [transition_status, if_true]
  rw [h1]
  have hid : (update_status_timestamps { o with status := ns } ns a now).id = o.id :=
    (update_status_timestamps_id_status { o with status := ns } ns a now).1
  simp [hid]

/-- C2: a transition whose edge is not in the table, run with validation
enabled, returns the `InvalidTransition` error carrying the allowed targets.
The `Except.error` result is produced by the validation step, which the
source runs strictly before any assignment to the order or any history
insert, so the caller's order (status, timestamps, timing fields, automation
flags) and the history table are exactly as before the call. -/
theorem transition_status_invalid_edge_error (o : Order)
    (hist : List OrderStatusHistory) (ns : OrderStatus) (r : StatusChangeReason)
    (uid : Option Nat) (n s : Option String) (a : Bool) (now : Int)
    (h1 : ¬ o.status = ns) (h2 : ns ∉ valid_transitions o.status) :
    transition_status o hist ns r uid n s true a now =
      .error (.statusTransition o.status ns (valid_transitions o.status)) := by
  have hv : validate_transition o.status ns =
      .error (.statusTransition o.status ns (valid_transitions o.status)) := by
    unfold validate_transition
    rw [if_neg h1, if_neg h2]
  simp only [transition_status, if_true]
  rw [hv]

/-- Witness for C2: the illegal jump Pending → Ready on a concrete pending
order is rejected with the allowed set {Confirmed, Cancelled, Failed}. -/
theorem transition_status_invalid_edge_error_witness :
    ¬ baseOrder.status = OrderStatus.ready ∧
    OrderStatus.ready ∉ valid_transitions baseOrder.status ∧
    transition_status baseOrder [] .ready .manualAdmin none none none true true 1000 =
      .error (.statusTransition baseOrder.status .ready (valid_transitions baseOrder.status)) :=
  ⟨by decide, by decide,
    transition_status_invalid_edge_error baseOrder [] .ready .manualAdmin none none none
      true 1000 (by decide) (by decide)⟩

/-- `intOptTruthy` evaluation on the two `Option` constructors. -/
@[simp] theorem intOptTruthy_none : intOptTruthy none = false := rfl

/-- `intOptTruthy` evaluation on `some`. -/
@[simp] theorem intOptTruthy_some (n : Int) : intOptTruthy (some n) = decide (n ≠ 0) := rfl

/-- Entering `Confirmed` in `_auto_calculate_timing_fields`: an unset
`estimated_preparation_time` is defaulted from the priority table, and
`estimated_delivery_time` always becomes `now` plus the (possibly just
defaulted) preparation time in minutes. -/
theorem auto_calc_confirmed_fields (o : Order) (now : Int) :
    (o.estimatedPreparationTime = none →
      (auto_calculate_timing_fields o .confirmed now).estimatedPreparationTime =
        some (default_preparation_times o.priority)) ∧
    (∃ p, (auto_calculate_timing_fields o .confirmed now).estimatedPreparationTime = some p ∧
      (auto_calculate_timing_fields o .confirmed now).estimatedDeliveryTime =
        some (now + 60 * p)) := by
  have hd0 : ¬ default_preparation_times o.priority = 0 := by
    cases o.priority <;> decide
  rcases hp : o.estimatedPreparationTime with _ | p
  · refine ⟨fun _ => ?_, ⟨default_preparation_times o.priority, ?_, ?_⟩⟩ <;>
      simp [auto_calculate_timing_fields, hp, hd0]
  · by_cases hz : p = 0
    · subst hz
      refine ⟨fun hno => ?_, ⟨default_preparation_times o.priority, ?_, ?_⟩⟩
      · exact absurd hno (by simp)
      · simp [auto_calculate_timing_fields, hp, hd0]
      · simp [auto_calculate_timing_fields, hp, hd0]
    · refine ⟨fun hno => ?_, ⟨p, ?_, ?_⟩⟩
      · exact absurd hno (by simp)
      · simp [auto_calculate_timing_fields, hp, hz]
      · simp [auto_calculate_timing_fields, hp, hz]

/-- C4: every order entering `Confirmed` through the Workflow Engine with
automatic time calculation enabled gets an `estimated_preparation_time`
defaulted from its priority (VIP=15, High=25, Normal=35, Low=45 minutes)
when unset, and `estimated_delivery_time = now + estimated_preparation_time`
minutes. -/
theorem transition_confirmed_auto_timing (o : Order) (hist : List OrderStatusHistory)
    (r : StatusChangeReason) (uid : Option Nat) (n s : Option String) (now : Int)
    (h1 : validate_transition o.status .confirmed = .ok ()) :
    ∃ res : Order × OrderStatusHistory × List OrderStatusHistory,
      transition_status o hist .confirmed r uid n s true true now = .ok res ∧
      (o.estimatedPreparationTime = none →
        res.1.estimatedPreparationTime = some (default_preparation_times o.priority)) ∧
      (∃ p, res.1.estimatedPreparationTime = some p ∧
        res.1.estimatedDeliveryTime = some (now + 60 * p)) ∧
      default_preparation_times .vip = 15 ∧ default_preparation_times .high = 25 ∧
      default_preparation_times .normal = 35 ∧ default_preparation_times .low = 45 := by
  refine ⟨_, transition_status_ok_shape o hist .confirmed r uid n s true now h1,
    ?_, ?_, rfl, rfl, rfl, rfl⟩
  · have hprep := (execute_post_transition_hooks_fields
      (update_status_timestamps { o with status := .confirmed } .confirmed true now)
      .confirmed hist.length now).2.2.2.1
    have hu : update_status_timestamps { o with status := .confirmed } .confirmed true now =
        auto_calculate_timing_fields
          { o with status := .confirmed, statusConfirmedAt := some now } .confirmed now := by
      simp [update_status_timestamps]
    intro hno
    rw [hprep, hu]
    exact (auto_calc_confirmed_fields
      { o with status := .confirmed, statusConfirmedAt := some now } now).1 hno
  · have hprep := (execute_post_transition_hooks_fields
      (update_status_timestamps { o with status := .confirmed } .confirmed true now)
      .confirmed hist.length now).2.2.2.1
    have hdel := (execute_post_transition_hooks_fields
      (update_status_timestamps { o with status := .confirmed } .confirmed true now)
      .confirmed hist.length now).2.2.2.2.1
    have hu : update_status_timestamps { o with status := .confirmed } .confirmed true now =
        auto_calculate_timing_fields
          { o with status := .confirmed, statusConfirmedAt := some now } .confirmed now := by
      simp [update_status_timestamps]
    rw [hprep, hdel, hu]
    exact (auto_calc_confirmed_fields
      { o with status := .confirmed, statusConfirmedAt := some now } now).2

/-- Witness for C4: a concrete Normal-priority pending order confirmed at
time 600 gets the 35-minute default and a delivery estimate 35 minutes out. -/
theorem transition_confirmed_auto_timing_witness :
    validate_transition baseOrder.status .confirmed = .ok () ∧
    ∃ res : Order × OrderStatusHistory × List OrderStatusHistory,
      transition_status baseOrder [] .confirmed .manualAdmin none none none true true 600 =
        .ok res ∧
      (baseOrder.estimatedPreparationTime = none →
        res.1.estimatedPreparationTime = some (default_preparation_times baseOrder.priority)) ∧
      (∃ p, res.1.estimatedPreparationTime = some p ∧
        res.1.estimatedDeliveryTime = some (600 + 60 * p)) ∧
      default_preparation_times .vip = 15 ∧ default_preparation_times .high = 25 ∧
      default_preparation_times .normal = 35 ∧ default_preparation_times .low = 45 :=
  ⟨by decide,
    transition_confirmed_auto_timing baseOrder [] .manualAdmin none none none 600 (by decide)⟩

/-- Entering `Ready` in `_auto_calculate_timing_fields`: an unset
`actual_preparation_end` becomes `now`; if `actual_preparation_start` is set
and `preparation_duration` unset, the duration is the whole minutes of
`now - actual_preparation_start` (the source uses `now`, not the stored
`actual_preparation_end`). -/
theorem auto_calc_ready_fields (o : Order) (now : Int) :
    (o.actualPreparationEnd = none →
      (auto_calculate_timing_fields o .ready now).actualPreparationEnd = some now) ∧
    (∀ t, o.actualPreparationStart = some t → o.preparationDuration = none →
      (auto_calculate_timing_fields o .ready now).preparationDuration =
        some (wholeMinutes (now - t))) := by
  constructor
  · intro he
    rcases hs : o.actualPreparationStart with _ | t
    · simp [auto_calculate_timing_fields, he, hs]
    · simp only [auto_calculate_timing_fields, he]
      simp [hs]
      split <;> simp
  · intro t hs hd
    rcases he : o.actualPreparationEnd with _ | e <;>
      simp [auto_calculate_timing_fields, he, hs, hd]

/-- A concrete order mid-preparation whose kitchen timestamps were recorded
earlier: preparation started at 0 and was stamped finished at 1800
(thirty minutes later). -/
def preRecordedOrder : Order :=
  { baseOrder with
      status := .preparing
      actualPreparationStart := some 0
      actualPreparationEnd := some 1800 }

/-- Counterexample to C5 as stated: with `actual_preparation_start = 0` and
`actual_preparation_end = 1800` (T and T + 30 min) already recorded,
transitioning into `Ready` at `now = 2700` (T + 45 min) sets
`preparation_duration` to 45, not the 30 that `end - start` would give: the
source computes `now - actual_preparation_start` and ignores the stored
`actual_preparation_end`. -/
theorem ready_duration_uses_now_counterexample :
    preRecordedOrder.actualPreparationStart = some 0 ∧
    preRecordedOrder.actualPreparationEnd = some (0 + 30 * 60) ∧
    preRecordedOrder.preparationDuration = none ∧
    (transition_status preRecordedOrder [] .ready .kitchenReady none none none
        true true 2700).toOption.map (fun res => res.1.preparationDuration) =
      some (some 45) ∧
    ¬ (transition_status preRecordedOrder [] .ready .kitchenReady none none none
        true true 2700).toOption.map (fun res => res.1.preparationDuration) =
      some (some 30) := by
  decide

/-- C5 amended: every order entering `Ready` via the Workflow Engine gets
`actual_preparation_end = now` if it was unset; and if
`actual_preparation_start` is set and `preparation_duration` unset,
`preparation_duration` becomes the whole minutes of
`now - actual_preparation_start` — which equals `end - start` exactly when
`actual_preparation_end` was unset (it is then set to `now`); a pre-recorded
`actual_preparation_end` is not consulted. -/
theorem transition_ready_auto_timing (o : Order) (hist : List OrderStatusHistory)
    (r : StatusChangeReason) (uid : Option Nat) (n s : Option String) (now : Int)
    (h1 : validate_transition o.status .ready = .ok ()) :
    ∃ res : Order × OrderStatusHistory × List OrderStatusHistory,
      transition_status o hist .ready r uid n s true true now = .ok res ∧
      (o.actualPreparationEnd = none → res.1.actualPreparationEnd = some now) ∧
      (∀ t, o.actualPreparationStart = some t → o.preparationDuration = none →
        res.1.preparationDuration = some (wholeMinutes (now - t))) := by
  refine ⟨_, transition_status_ok_shape o hist .ready r uid n s true now h1, ?_, ?_⟩
  · have hend := (execute_post_transition_hooks_fields
      (update_status_timestamps { o with status := .ready } .ready true now)
      .ready hist.length now).2.2.2.2.2.2.1
    have hu : update_status_timestamps { o with status := .ready } .ready true now =
        auto_calculate_timing_fields
          { o with status := .ready, statusReadyAt := some now } .ready now := by
      simp [update_status_timestamps]
    intro he
    rw [hend, hu]
    exact (auto_calc_ready_fields
      { o with status := .ready, statusReadyAt := some now } now).1 he
  · have hdur := (execute_post_transition_hooks_fields
      (update_status_timestamps { o with status := .ready } .ready true now)
      .ready hist.length now).2.2.2.2.2.2.2.1
    have hu : update_status_timestamps { o with status := .ready } .ready true now =
        auto_calculate_timing_fields
          { o with status := .ready, statusReadyAt := some now } .ready now := by
      simp [update_status_timestamps]
    intro t hs hd
    rw [hdur, hu]
    exact (auto_calc_ready_fields
      { o with status := .ready, statusReadyAt := some now } now).2 t hs hd

/-- Witness for the amended C5: preparation started at 0, nothing else
recorded; entering Ready at 1800 stamps the end and computes 30 minutes. -/
theorem transition_ready_auto_timing_witness :
    validate_transition OrderStatus.preparing .ready = .ok () ∧
    ∃ res : Order × OrderStatusHistory × List OrderStatusHistory,
      transition_status
          { baseOrder with status := .preparing, actualPreparationStart := some 0 }
          [] .ready .kitchenReady none none none true true 1800 = .ok res ∧
      ({ baseOrder with
           status := OrderStatus.preparing,
           actualPreparationStart := some 0 : Order }.actualPreparationEnd = none →
        res.1.actualPreparationEnd = some 1800) ∧
      (∀ t, ({ baseOrder with
                 status := OrderStatus.preparing,
                 actualPreparationStart := some 0 : Order }.actualPreparationStart = some t →
        ({ baseOrder with
             status := OrderStatus.preparing,
             actualPreparationStart := some 0 : Order }.preparationDuration = none →
          res.1.preparationDuration = some (wholeMinutes (1800 - t))))) :=
  ⟨by decide,
    transition_ready_auto_timing
      { baseOrder with status := .preparing, actualPreparationStart := some 0 }
      [] .kitchenReady none none none 1800 (by decide)⟩

/-- `pickLater` always yields a row; the row is the accumulator or the new
element, and is at least as late as both. -/
theorem pickLater_spec (acc : Option OrderStatusHistory) (hd : OrderStatusHistory) :
    ∃ c, pickLater acc hd = some c ∧ hd.changedAt ≤ c.changedAt ∧
      (∀ b, acc = some b → b.changedAt ≤ c.changedAt) ∧
      (acc = some c ∨ c = hd) := by
  rcases acc with _ | b
  · exact ⟨hd, rfl, le_refl _, by simp, Or.inr rfl⟩
  · by_cases hgt : hd.changedAt > b.changedAt
    · refine ⟨hd, by simp [pickLater, hgt], le_refl _, ?_, Or.inr rfl⟩
      intro b2 hb2
      cases hb2
      exact le_of_lt hgt
    · refine ⟨b, by simp [pickLater, hgt], not_lt.mp hgt, ?_, Or.inl rfl⟩
      intro b2 hb2
      cases hb2
      exact le_refl _

/-- Folding `pickLater` over a list starting from an accumulator: a `none`
result forces an empty fold; a `some` result is the accumulator or a list
element and dominates every list element and the accumulator. -/
theorem pickLater_foldl_spec (L : List OrderStatusHistory) :
    ∀ acc : Option OrderStatusHistory,
      (L.foldl pickLater acc = none → acc = none ∧ L = []) ∧
      (∀ l, L.foldl pickLater acc = some l →
        (acc = some l ∨ l ∈ L) ∧
        (∀ x ∈ L, x.changedAt ≤ l.changedAt) ∧
        (∀ b, acc = some b → b.changedAt ≤ l.changedAt)) := by
  induction L with
  | nil =>
    intro acc
    refine ⟨fun h => ⟨h, rfl⟩, fun l h => ⟨Or.inl h, by simp, fun b hb => ?_⟩⟩
    rw [hb] at h
    cases h
    exact le_refl _
  | cons hd tl ih =>
    intro acc
    obtain ⟨c, hc, hhd, hacc, hor⟩ := pickLater_spec acc hd
    constructor
    · intro h
      rw [List.foldl_cons, hc] at h
      obtain ⟨hnone, _⟩ := (ih (some c)).1 h
      cases hnone
    · intro l h
      rw [List.foldl_cons, hc] at h
      obtain ⟨hmem, hall, haccle⟩ := (ih (some c)).2 l h
      have hcle : c.changedAt ≤ l.changedAt := haccle c rfl
      refine ⟨?_, ?_, ?_⟩
      · rcases hmem with hcl | hl
        · rcases hor with hacc2 | hchd
          · cases hcl
            exact Or.inl hacc2
          · cases hcl
            rw [hchd]
            exact Or.inr (List.mem_cons_self _ _)
        · exact Or.inr (List.mem_cons_of_mem _ hl)
      · intro x hx
        rcases List.mem_cons.mp hx with hxh | hxt
        · rw [hxh]
          exact le_trans hhd hcle
        · exact hall x hxt
      · intro b hb
        exact le_trans (hacc b hb) hcle

/-- `get_last_status_history` returns a record of the given order whose
`changed_at` dominates every history record of that order; it returns `none`
exactly when the order has no history record. -/
theorem get_last_status_history_spec (hist : List OrderStatusHistory) (oid : Nat) :
    (∀ l, get_last_status_history hist oid = some l →
      l.orderId = oid ∧ l ∈ hist ∧
        ∀ h2 ∈ hist, h2.orderId = oid → h2.changedAt ≤ l.changedAt) ∧
    (get_last_status_history hist oid = none →
      ∀ h2 ∈ hist, h2.orderId = oid → False) := by
  constructor
  · intro l hl
    unfold get_last_status_history at hl
    obtain ⟨hmem, hall, _⟩ :=
      (pickLater_foldl_spec (hist.filter fun h => decide (h.orderId = oid)) none).2 l hl
    have hmem2 : l ∈ hist.filter fun h => decide (h.orderId = oid) := by
      rcases hmem with hno | hm
      · cases hno
      · exact hm
    rw [List.mem_filter] at hmem2
    refine ⟨by simpa using hmem2.2, hmem2.1, ?_⟩
    intro h2 hh2 ho
    exact hall h2 (List.mem_filter.mpr ⟨hh2, by simp [ho]⟩)
  · intro hn h2 hh2 ho
    unfold get_last_status_history at hn
    obtain ⟨_, hemp⟩ :=
      (pickLater_foldl_spec (hist.filter fun h => decide (h.orderId = oid)) none).1 hn
    have : h2 ∈ hist.filter fun h => decide (h.orderId = oid) :=
      List.mem_filter.mpr ⟨hh2, by simp [ho]⟩
    rw [hemp] at this
    cases this

/-- Counterexample to C6 as stated: transitioning an order with no prior
history record (Pending → Confirmed on an empty history table) leaves
`duration_from_previous` as NULL (`none`), not 0: the source initialises the
variable to `None` and only assigns it when a previous record exists. -/
theorem duration_no_prior_record_counterexample :
    (transition_status baseOrder [] .confirmed .manualAdmin none none none
        true true 600).toOption.map (fun res => res.2.1.durationFromPrevious) =
      some none ∧
    ¬ (transition_status baseOrder [] .confirmed .manualAdmin none none none
        true true 600).toOption.map (fun res => res.2.1.durationFromPrevious) =
      some (some 0) := by
  decide

/-- C6 amended: for a status-changing transition, the history record's
`duration_from_previous` is the whole minutes of `now` minus the
`changed_at` of the order's most recent prior history record (the record of
this order dominating all of its records by `changed_at`); it is left unset
(NULL) when there is no prior record, and also on a same-status no-op
transition. -/
theorem transition_duration_from_previous (o : Order) (hist : List OrderStatusHistory)
    (ns : OrderStatus) (r : StatusChangeReason) (uid : Option Nat)
    (n s : Option String) (a : Bool) (now : Int)
    (h1 : validate_transition o.status ns = .ok ()) :
    ∃ res : Order × OrderStatusHistory × List OrderStatusHistory,
      transition_status o hist ns r uid n s true a now = .ok res ∧
      (o.status = ns → res.2.1.durationFromPrevious = none) ∧
      (o.status ≠ ns → get_last_status_history hist o.id = none →
        res.2.1.durationFromPrevious = none) ∧
      (∀ l, o.status ≠ ns → get_last_status_history hist o.id = some l →
        res.2.1.durationFromPrevious = some (wholeMinutes (now - l.changedAt))) ∧
      (∀ l, get_last_status_history hist o.id = some l →
        l.orderId = o.id ∧ l ∈ hist ∧
          ∀ h2 ∈ hist, h2.orderId = o.id → h2.changedAt ≤ l.changedAt) ∧
      (get_last_status_history hist o.id = none →
        ∀ h2 ∈ hist, h2.orderId ≠ o.id) := by
  refine ⟨_, transition_status_ok_shape o hist ns r uid n s a now h1, ?_, ?_, ?_,
    (get_last_status_history_spec hist o.id).1, ?_⟩
  · intro heq
    simp [heq]
  · intro hne hnone
    simp only [if_pos hne, hnone]
  · intro l hne hsome
    simp only [if_pos hne, hsome]
  · intro hn h2 hh2
    exact fun ho => (get_last_status_history_spec hist o.id).2 hn h2 hh2 ho

/-- A prior (creation) history record for order 7 at time 100. -/
def priorRecord : OrderStatusHistory :=
  { id := 0
    orderId := 7
    fromStatus := none
    toStatus := "pending"
    reason := .automatic
    changedByUserId := none
    changedAt := 100
    notes := none
    systemMessage := none
    durationFromPrevious := none }

/-- Witness for the amended C6: confirming order 7 at time 700 against a
history containing one record at time 100 stores 10 whole minutes. -/
theorem transition_duration_from_previous_witness :
    validate_transition baseOrder.status .confirmed = .ok () ∧
    ∃ res : Order × OrderStatusHistory × List OrderStatusHistory,
      transition_status baseOrder [priorRecord] .confirmed .manualAdmin none none none
          true true 700 = .ok res ∧
      (baseOrder.status = .confirmed → res.2.1.durationFromPrevious = none) ∧
      (baseOrder.status ≠ .confirmed →
        get_last_status_history [priorRecord] baseOrder.id = none →
        res.2.1.durationFromPrevious = none) ∧
      (∀ l, baseOrder.status ≠ .confirmed →
        get_last_status_history [priorRecord] baseOrder.id = some l →
        res.2.1.durationFromPrevious = some (wholeMinutes (700 - l.changedAt))) ∧
      (∀ l, get_last_status_history [priorRecord] baseOrder.id = some l →
        l.orderId = baseOrder.id ∧ l ∈ [priorRecord] ∧
          ∀ h2 ∈ [priorRecord], h2.orderId = baseOrder.id →
            h2.changedAt ≤ l.changedAt) ∧
      (get_last_status_history [priorRecord] baseOrder.id = none →
        ∀ h2 ∈ [priorRecord], h2.orderId ≠ baseOrder.id) :=
  ⟨by decide,
    transition_duration_from_previous baseOrder [priorRecord] .confirmed .manualAdmin
      none none none true 700 (by decide)⟩

/-- `Order.is_completed_state` (`models/order.py` lines 136-138): terminal
statuses. -/
def Order.isCompletedState (o : Order) : Bool :=
  decide (o.status ∈ ([.completed, .cancelled, .failed, .refunded] : List OrderStatus))

/-- `Order.can_be_cancelled` (`models/order.py` lines 140-143). -/
def Order.canBeCancelled (o : Order) : Bool :=
  decide (o.status ∈ ([.pending, .confirmed, .preparing] : List OrderStatus))

/-- `Order.get_estimated_completion_time` (`models/order.py` lines 167-173):
`None` when `estimated_preparation_time` is falsy, otherwise
`(status_confirmed_at or created_at) + estimated_preparation_time` minutes. -/
def Order.getEstimatedCompletionTime (o : Order) : Option Int :=
  if intOptTruthy o.estimatedPreparationTime then
    match o.estimatedPreparationTime with
    | some p => some (o.statusConfirmedAt.getD o.createdAt + 60 * p)
    | none => none
  else none

/-- `Order.is_overdue` (`models/order.py` lines 191-197): past the estimated
completion time and not in a terminal state. -/
def Order.is_overdue (o : Order) (now : Int) : Bool :=
  match o.getEstimatedCompletionTime with
  | none => false
  | some est => decide (now > est) && !o.isCompletedState

/-- Counterexample to C7 as stated: an order whose `estimated_delivery_time`
is set and already past (100 < now = 200), in the non-terminal state
Pending, for which the claim requires `is_overdue = true` — yet the source
returns `false`, because `is_overdue` reads
`get_estimated_completion_time()` (derived from `estimated_preparation_time`,
here unset), never the `estimated_delivery_time` column. -/
theorem is_overdue_reads_completion_time_counterexample :
    ({ baseOrder with estimatedDeliveryTime := some 100 : Order }.estimatedDeliveryTime =
      some 100) ∧
    ((200 : Int) > 100) ∧
    ¬ ({ baseOrder with estimatedDeliveryTime := some 100 : Order }.status = .completed ∨
        { baseOrder with estimatedDeliveryTime := some 100 : Order }.status = .cancelled ∨
        { baseOrder with estimatedDeliveryTime := some 100 : Order }.status = .failed ∨
        { baseOrder with estimatedDeliveryTime := some 100 : Order }.status = .refunded) ∧
    { baseOrder with estimatedDeliveryTime := some 100 : Order }.is_overdue 200 = false := by
  decide

/-- C7 amended: `is_overdue(order)` is true iff `estimated_preparation_time`
is set and nonzero, the current time is strictly after
`(status_confirmed_at if set else created_at) + estimated_preparation_time`
minutes, and the order is not in a terminal state (Completed, Cancelled,
Failed, Refunded); the `estimated_delivery_time` column plays no role. -/
theorem is_overdue_iff (o : Order) (now : Int) :
    o.is_overdue now = true ↔
      ∃ p, o.estimatedPreparationTime = some p ∧ p ≠ 0 ∧
        now > o.statusConfirmedAt.getD o.createdAt + 60 * p ∧
        ¬ (o.status = .completed ∨ o.status = .cancelled ∨ o.status = .failed ∨
            o.status = .refunded) := by
  unfold Order.is_overdue Order.getEstimatedCompletionTime
  rcases hp : o.estimatedPreparationTime with _ | p
  · simp [hp]
  · by_cases hz : p = 0
    · subst hz
      simp [hp]
    · simp [hp, hz, Order.isCompletedState]

/-- The cancellation-field updates `cancel_order` writes on the order before
delegating to the Workflow Engine (`services/order.py` lines 263-267):
`cancelled_by_user_id`, `cancellation_reason`, and — only when the amount is
truthy — `refund_amount`. -/
def cancel_order_update (o : Order) (uid : Option Nat) (reason : Option String)
    (refund : Option Nat) : Order :=
  let o1 := { o with cancelledByUserId := uid, cancellationReason := reason }
  if natOptTruthy refund then { o1 with refundAmount := refund } else o1

/-- The reason enum picked by `cancel_order` (line 271): customer when a
truthy user id is given, admin otherwise. -/
def cancel_reason_enum (uid : Option Nat) : StatusChangeReason :=
  if natOptTruthy uid then .cancelledByCustomer else .cancelledByAdmin

/-- The notes string built by `cancel_order` (line 278): set only for a
truthy reason string. -/
def cancel_notes (reason : Option String) : Option String :=
  match reason with
  | some r => if r = "" then none else some ("Причина отмены: " ++ r)
  | none => none

/-- `OrderService.cancel_order` (`services/order.py` lines 238-287) acting on
the store: fetch the live order, refuse unless `can_be_cancelled`, then stamp
the cancellation fields and run the Workflow Engine transition to Cancelled
(validation enabled); the caught-exception path returns `False` with the
store unchanged.  Returns the Python boolean result and the resulting
store. -/
def cancel_order (db : Db) (orderId : Nat) (cancelledByUserId : Option Nat)
    (reason : Option String) (refundAmount : Option Nat) (now : Int) : Bool × Db :=
  match db.orders.find? (fun o => decide (o.id = orderId) && !o.isDeleted) with
  | none => (false, db)
  | some o =>
    if !o.canBeCancelled then (false, db)
    else
      match transition_status (cancel_order_update o cancelledByUserId reason refundAmount)
          db.history .cancelled (cancel_reason_enum cancelledByUserId) cancelledByUserId
          (cancel_notes reason) none true true now with
      | .error _ => (false, db)
      | .ok (o2, _, hist2) =>
        (true,
         { orders := db.orders.map (fun q => if q.id = orderId then o2 else q),
           history := hist2 })

/-- The cancellation-field update does not change the status. -/
theorem cancel_order_update_status (o : Order) (uid : Option Nat)
    (reason : Option String) (refund : Option Nat) :
    (cancel_order_update o uid reason refund).status = o.status := by
  unfold cancel_order_update
  split <;> rfl

/-- C10: the public `CancelOrder` cancels an order only when its status is
Pending, Confirmed or Preparing: a `true` result implies the fetched order
was in one of those statuses; conversely any fetched order in one of them is
cancelled; for an order in Ready or any terminal status the call returns
`False` and leaves the store untouched — even though the transition table
itself permits the edge Ready → Cancelled. -/
theorem cancel_order_requires_cancellable_status (db : Db) (orderId : Nat)
    (uid : Option Nat) (reason : Option String) (refund : Option Nat) (now : Int) :
    ((cancel_order db orderId uid reason refund now).1 = true →
      ∃ o, db.orders.find? (fun q => decide (q.id = orderId) && !q.isDeleted) = some o ∧
        (o.status = .pending ∨ o.status = .confirmed ∨ o.status = .preparing)) ∧
    (∀ o, db.orders.find? (fun q => decide (q.id = orderId) && !q.isDeleted) = some o →
      ¬ (o.status = .pending ∨ o.status = .confirmed ∨ o.status = .preparing) →
      cancel_order db orderId uid reason refund now = (false, db)) ∧
    (∀ o, db.orders.find? (fun q => decide (q.id = orderId) && !q.isDeleted) = some o →
      (o.status = .pending ∨ o.status = .confirmed ∨ o.status = .preparing) →
      (cancel_order db orderId uid reason refund now).1 = true) ∧
    OrderStatus.cancelled ∈ valid_transitions .ready := by
  refine ⟨?_, ?_, ?_, by decide⟩
  · intro htrue
    rcases hfind : db.orders.find? (fun q => decide (q.id = orderId) && !q.isDeleted) with
      _ | o
    · exfalso
      unfold cancel_order at htrue
      rw [hfind] at htrue
      simp at htrue
    · refine ⟨o, hfind, ?_⟩
      by_cases hc : o.canBeCancelled = true
      · simpa [Order.canBeCancelled] using hc
      · exfalso
        have hcf : o.canBeCancelled = false := by
          simpa using hc
        unfold cancel_order at htrue
        rw [hfind] at htrue
        simp [hcf] at htrue
  · intro o hfind hst
    have hcf : o.canBeCancelled = false := by
      simpa [Order.canBeCancelled] using hst
    unfold cancel_order
    rw [hfind]
    simp [hcf]
  · intro o hfind hst
    have hc : o.canBeCancelled = true := by
      simpa [Order.canBeCancelled] using hst
    have hval : validate_transition
        (cancel_order_update o uid reason refund).status .cancelled = .ok () := by
      rw [cancel_order_update_status]
      rcases hst with h | h | h <;> rw [h] <;> decide
    unfold cancel_order
    rw [hfind]
    simp only [hc, Bool.not_true]
    rw [if_neg (by simp),
      transition_status_ok_shape (cancel_order_update o uid reason refund) db.history
        .cancelled (cancel_reason_enum uid) uid (cancel_notes reason) none true now hval]

/-- Witness for C10: on a one-order store holding order 7 in Ready, the
cancel call returns `False` and leaves the store unchanged, while the
transition table itself allows Ready → Cancelled; on the same store with the
order in Pending the call returns `True`. -/
theorem cancel_order_requires_cancellable_status_witness :
    cancel_order { orders := [{ baseOrder with status := .ready }], history := [] }
        7 none none none 500 =
      (false, { orders := [{ baseOrder with status := .ready }], history := [] }) ∧
    OrderStatus.cancelled ∈ valid_transitions .ready ∧
    (cancel_order { orders := [baseOrder], history := [] } 7 none none none 500).1 = true :=
  ⟨(cancel_order_requires_cancellable_status
        { orders := [{ baseOrder with status := .ready }], history := [] }
        7 none none none 500).2.1
      { baseOrder with status := .ready } (by decide) (by decide),
    (cancel_order_requires_cancellable_status
        { orders := [{ baseOrder with status := .ready }], history := [] }
        7 none none none 500).2.2.2,
    (cancel_order_requires_cancellable_status
        { orders := [baseOrder], history := [] } 7 none none none 500).2.2.1
      baseOrder (by decide) (by decide)⟩

/-- A failed validation makes the whole transition call fail with that
error: the source raises before any other work. -/
theorem transition_status_error_shape (o : Order) (hist : List OrderStatusHistory)
    (ns : OrderStatus) (r : StatusChangeReason) (uid : Option Nat)
    (n s : Option String) (a : Bool) (now : Int) (e : WorkflowErr)
    (hv : validate_transition o.status ns = .error e) :
    transition_status o hist ns r uid n s true a now = .error e := by
  simp only [transition_status, if_true]
  rw [hv]

/-- A successful transition returns an order with the same id and exactly
the requested status. -/
theorem transition_status_ok_id_status (o : Order) (hist : List OrderStatusHistory)
    (ns : OrderStatus) (r : StatusChangeReason) (uid : Option Nat)
    (n s : Option String) (a : Bool) (now : Int)
    (o2 : Order) (rec2 : OrderStatusHistory) (hist2 : List OrderStatusHistory)
    (h : transition_status o hist ns r uid n s true a now = .ok (o2, rec2, hist2)) :
    o2.id = o.id ∧ o2.status = ns := by
  rcases hv : validate_transition o.status ns with e | u
  · rw [transition_status_error_shape o hist ns r uid n s a now e hv] at h
    cases h
  · cases u
    rw [transition_status_ok_shape o hist ns r uid n s a now hv] at h
    simp only [Except.ok.injEq, Prod.mk.injEq] at h
    obtain ⟨hA, _⟩ := h
    rw [← hA]
    constructor
    · rw [(execute_post_transition_hooks_fields _ ns hist.length now).1,
        (update_status_timestamps_id_status _ ns a now).1]
    · rw [(execute_post_transition_hooks_fields _ ns hist.length now).2.1,
        (update_status_timestamps_id_status _ ns a now).2]

/-- Per-item error reason recorded in the bulk `failed` list (the Python
code stores `str(e)`; the two possible exceptions in this path are the
missing-order branch and the workflow validation error). -/
inductive BulkError where
  | notFound
  | workflow (e : WorkflowErr)
deriving DecidableEq, Repr

/-- One entry of the bulk `failed` list. -/
structure BulkFailure where
  orderId : Nat
  error : BulkError
deriving DecidableEq, Repr

/-- One entry of the bulk `successful` list. -/
structure BulkSuccess where
  orderId : Nat
  oldStatus : Option String
  newStatus : String
  historyId : Nat
deriving DecidableEq, Repr

/-- The result dictionary of `bulk_transition_orders`. -/
structure BulkResults where
  successful : List BulkSuccess
  failed : List BulkFailure
  totalProcessed : Nat
  successCount : Nat
  failureCount : Nat
deriving DecidableEq, Repr

/-- One iteration of the `bulk_transition_orders` loop
(`services/order_workflow.py` lines 409-452): bump `total_processed`, fetch
the live order (missing → `failed` entry), run the validated transition
(exception → `failed` entry), otherwise commit and record the success. -/
def bulk_step (newStatus : OrderStatus) (reason : StatusChangeReason)
    (uid : Option Nat) (notes : Option String) (now : Int)
    (acc : Db × BulkResults) (orderId : Nat) : Db × BulkResults :=
  let db := acc.1
  let res := acc.2
  let res := { res with totalProcessed := res.totalProcessed + 1 }
  match db.orders.find? (fun o => decide (o.id = orderId) && !o.isDeleted) with
  | none =>
    (db, { res with failed := res.failed ++ [⟨orderId, .notFound⟩],
                    failureCount := res.failureCount + 1 })
  | some o =>
    match transition_status o db.history newStatus reason uid notes none true true now with
    | .error e =>
      (db, { res with failed := res.failed ++ [⟨orderId, .workflow e⟩],
                      failureCount := res.failureCount + 1 })
    | .ok (o2, rec2, hist2) =>
      ({ orders := db.orders.map (fun q => if q.id = orderId then o2 else q),
         history := hist2 },
       { res with
           successful := res.successful ++
             [⟨orderId, rec2.fromStatus, rec2.toStatus, rec2.id⟩],
           successCount := res.successCount + 1 })

/-- `OrderWorkflow.bulk_transition_orders` (lines 380-459): sequential fold
of `bulk_step` over the requested ids starting from empty results. -/
def bulk_transition_orders (db : Db) (orderIds : List Nat) (newStatus : OrderStatus)
    (reason : StatusChangeReason) (uid : Option Nat) (notes : Option String)
    (now : Int) : Db × BulkResults :=
  orderIds.foldl (bulk_step newStatus reason uid notes now)
    (db, { successful := [], failed := [], totalProcessed := 0,
           successCount := 0, failureCount := 0 })

/-- The bulk-loop invariant: counters match list lengths and every recorded
success is persisted with the target status. -/
def bulkInv (ns : OrderStatus) (st : Db × BulkResults) : Prop :=
  st.2.totalProcessed = st.2.successCount + st.2.failureCount ∧
  st.2.successCount = st.2.successful.length ∧
  st.2.failureCount = st.2.failed.length ∧
  ∀ e ∈ st.2.successful, ∃ o ∈ st.1.orders, o.id = e.orderId ∧ o.status = ns

/-- One bulk iteration preserves the loop invariant and bumps
`total_processed` by exactly one, whether the item succeeds or fails. -/
theorem bulk_step_preserves (ns : OrderStatus) (r : StatusChangeReason)
    (uid : Option Nat) (n : Option String) (now : Int) (acc : Db × BulkResults)
    (oid : Nat) (h : bulkInv ns acc) :
    bulkInv ns (bulk_step ns r uid n now acc oid) ∧
    (bulk_step ns r uid n now acc oid).2.totalProcessed =
      acc.2.totalProcessed + 1 := by
  obtain ⟨ht, hs, hf, hp⟩ := h
  rcases hfind : acc.1.orders.find? (fun o => decide (o.id = oid) && !o.isDeleted) with
    _ | o
  · simp only [bulk_step, hfind]
    refine ⟨⟨?_, ?_, ?_, ?_⟩, by trivial⟩
    · simp only []
      omega
    · exact hs
    · simp [hf]
    · exact hp
  · have hpred := List.find?_some hfind
    have hoid : o.id = oid := by
      simp only [Bool.and_eq_true, decide_eq_true_eq] at hpred
      exact hpred.1
    have hmem : o ∈ acc.1.orders := List.mem_of_find?_eq_some hfind
    rcases htr : transition_status o acc.1.history ns r uid n none true true now with
      e | triple
    · simp only [bulk_step, hfind, htr]
      refine ⟨⟨?_, ?_, ?_, ?_⟩, by trivial⟩
      · simp only []
        omega
      · exact hs
      · simp [hf]
      · exact hp
    · obtain ⟨o2, rec2, hist2⟩ := triple
      obtain ⟨hid2, hst2⟩ :=
        transition_status_ok_id_status o acc.1.history ns r uid n none true now
          o2 rec2 hist2 htr
      simp only [bulk_step, hfind, htr]
      refine ⟨⟨?_, ?_, ?_, ?_⟩, by trivial⟩
      · simp only []
        omega
      · simp [hs]
      · exact hf
      · intro e he
        simp only [List.mem_append, List.mem_singleton] at he
        rcases he with hold | hnew
        · obtain ⟨o3, ho3mem, ho3id, ho3st⟩ := hp e hold
          refine ⟨if o3.id = oid then o2 else o3,
            List.mem_map.mpr ⟨o3, ho3mem, rfl⟩, ?_, ?_⟩
          · by_cases hcase : o3.id = oid
            · rw [if_pos hcase, hid2, hoid, ← hcase]
              exact ho3id
            · rw [if_neg hcase]
              exact ho3id
          · by_cases hcase : o3.id = oid
            · rw [if_pos hcase]
              exact hst2
            · rw [if_neg hcase]
              exact ho3st
        · refine ⟨o2, List.mem_map.mpr ⟨o, hmem, by rw [if_pos hoid]⟩, ?_, hst2⟩
          rw [hnew, hid2, hoid]

/-- Folding the bulk step preserves the invariant and counts every input
item exactly once. -/
theorem bulk_foldl_inv (ns : OrderStatus) (r : StatusChangeReason)
    (uid : Option Nat) (n : Option String) (now : Int) :
    ∀ (ids : List Nat) (acc : Db × BulkResults), bulkInv ns acc →
      bulkInv ns (ids.foldl (bulk_step ns r uid n now) acc) ∧
      (ids.foldl (bulk_step ns r uid n now) acc).2.totalProcessed =
        acc.2.totalProcessed + ids.length := by
  intro ids
  induction ids with
  | nil =>
    intro acc h
    exact ⟨h, by simp⟩
  | cons i is ih =>
    intro acc h
    obtain ⟨hstep, hone⟩ := bulk_step_preserves ns r uid n now acc i h
    obtain ⟨hinv, htot⟩ := ih (bulk_step ns r uid n now acc i) hstep
    refine ⟨by simpa using hinv, ?_⟩
    rw [List.foldl_cons] at *
    rw [htot, hone]
    simp [List.length_cons]
    omega

/-- C3: `BulkTransition` processes every id independently: the result
counters satisfy `total_processed = length of input = success_count +
failure_count` (so a failing item never aborts the remaining ones), the
counters equal the lengths of the `successful`/`failed` lists, and every id
reported successful is persisted in the resulting store with the target
status. -/
theorem bulk_transition_partial_failure (db : Db) (ids : List Nat)
    (ns : OrderStatus) (r : StatusChangeReason) (uid : Option Nat)
    (n : Option String) (now : Int) :
    (bulk_transition_orders db ids ns r uid n now).2.totalProcessed = ids.length ∧
    (bulk_transition_orders db ids ns r uid n now).2.totalProcessed =
      (bulk_transition_orders db ids ns r uid n now).2.successCount +
        (bulk_transition_orders db ids ns r uid n now).2.failureCount ∧
    (bulk_transition_orders db ids ns r uid n now).2.successCount =
      (bulk_transition_orders db ids ns r uid n now).2.successful.length ∧
    (bulk_transition_orders db ids ns r uid n now).2.failureCount =
      (bulk_transition_orders db ids ns r uid n now).2.failed.length ∧
    ∀ e ∈ (bulk_transition_orders db ids ns r uid n now).2.successful,
      ∃ o ∈ (bulk_transition_orders db ids ns r uid n now).1.orders,
        o.id = e.orderId ∧ o.status = ns := by
  have hinit : bulkInv ns
      (db, { successful := [], failed := [], totalProcessed := 0,
             successCount := 0, failureCount := 0 }) := by
    refine ⟨rfl, rfl, rfl, ?_⟩
    intro e he
    cases he
  obtain ⟨⟨h1, h2, h3, h4⟩, h5⟩ := bulk_foldl_inv ns r uid n now ids _ hinit
  exact ⟨by simpa using h5, h1, h2, h3, h4⟩

/-- A two-order store: order 7 in Pending, order 8 in Ready. -/
def bulkDb : Db :=
  { orders := [baseOrder, { baseOrder with id := 8, status := .ready }],
    history := [] }

/-- Witness for C3, the spec's bulk scenario: `BulkTransition([valid,
invalidTransition, missing], Confirmed)` returns `successCount = 1`,
`failureCount = 2`, persists order 7 as Confirmed and leaves order 8 in
Ready. -/
theorem bulk_transition_partial_failure_witness :
    ((bulk_transition_orders bulkDb [7, 8, 99] .confirmed .manualAdmin none none
        900).2.totalProcessed = [7, 8, 99].length ∧
      (bulk_transition_orders bulkDb [7, 8, 99] .confirmed .manualAdmin none none
        900).2.totalProcessed =
        (bulk_transition_orders bulkDb [7, 8, 99] .confirmed .manualAdmin none none
          900).2.successCount +
          (bulk_transition_orders bulkDb [7, 8, 99] .confirmed .manualAdmin none none
            900).2.failureCount ∧
      (bulk_transition_orders bulkDb [7, 8, 99] .confirmed .manualAdmin none none
        900).2.successCount =
        (bulk_transition_orders bulkDb [7, 8, 99] .confirmed .manualAdmin none none
          900).2.successful.length ∧
      (bulk_transition_orders bulkDb [7, 8, 99] .confirmed .manualAdmin none none
        900).2.failureCount =
        (bulk_transition_orders bulkDb [7, 8, 99] .confirmed .manualAdmin none none
          900).2.failed.length ∧
      ∀ e ∈ (bulk_transition_orders bulkDb [7, 8, 99] .confirmed .manualAdmin none none
          900).2.successful,
        ∃ o ∈ (bulk_transition_orders bulkDb [7, 8, 99] .confirmed .manualAdmin none none
            900).1.orders,
          o.id = e.orderId ∧ o.status = .confirmed) ∧
    (bulk_transition_orders bulkDb [7, 8, 99] .confirmed .manualAdmin none none
      900).2.successCount = 1 ∧
    (bulk_transition_orders bulkDb [7, 8, 99] .confirmed .manualAdmin none none
      900).2.failureCount = 2 ∧
    ((bulk_transition_orders bulkDb [7, 8, 99] .confirmed .manualAdmin none none
      900).1.orders.find? (fun q => decide (q.id = 7) && !q.isDeleted)).map
        Order.status = some .confirmed ∧
    ((bulk_transition_orders bulkDb [7, 8, 99] .confirmed .manualAdmin none none
      900).1.orders.find? (fun q => decide (q.id = 8) && !q.isDeleted)).map
        Order.status = some .ready :=
  ⟨bulk_transition_partial_failure bulkDb [7, 8, 99] .confirmed .manualAdmin none none 900,
    by decide, by decide, by decide, by decide⟩

/-- `ScheduledTask` from `utils/scheduler.py` (lines 16-24); the payload dict
is carried opaquely as key/value pairs. -/
structure ScheduledTask where
  taskId : String
  executeAt : Int
  taskType : String
  payload : List (String × String)
  retryCount : Nat
  maxRetries : Nat
deriving DecidableEq, Repr

/-- The task types with registered handlers
(`_register_default_handlers`, lines 36-43). -/
def default_task_handlers : List String :=
  ["send_notification", "process_feedback_request",
   "retry_failed_notifications", "daily_stats"]

/-- `self.task_handlers.get(task.task_type)` is non-`None` exactly for the
registered task types. -/
def handlerRegistered (taskType : String) : Bool :=
  default_task_handlers.contains taskType

/-- Python dict assignment `self.tasks[task_id] = task`: replace in place if
the key exists, else append. -/
def tasksInsert (tasks : List ScheduledTask) (t : ScheduledTask) :
    List ScheduledTask :=
  if tasks.any (fun u => u.taskId == t.taskId) then
    tasks.map (fun u => if u.taskId == t.taskId then t else u)
  else tasks ++ [t]

/-- `NotificationScheduler._execute_task` (lines 96-115) acting on the task
dict from which `_process_due_tasks` has already removed the task: a missing
handler only logs (the task stays dropped); a successful handler leaves the
task dropped; a failing handler re-inserts the task with `retry_count + 1`
and `execute_at = now + 5 * retry_count` minutes while
`retry_count < max_retries`, and otherwise leaves it dropped.  The external
handler outcome is the oracle `handlerFails`. -/
def execute_task (tasks : List ScheduledTask) (task : ScheduledTask)
    (handlerFails : ScheduledTask → Bool) (now : Int) : List ScheduledTask :=
  if !handlerRegistered task.taskType then tasks
  else if !handlerFails task then tasks
  else if task.retryCount < task.maxRetries then
    tasksInsert tasks
      { task with retryCount := task.retryCount + 1,
                  executeAt := now + 60 * (5 * (task.retryCount + 1)) }
  else tasks

/-- `NotificationScheduler._process_due_tasks` (lines 78-94): due tasks are
removed from the dict, then each is executed (the database-notification
drain that follows does not touch the task dict). -/
def process_due_tasks (tasks : List ScheduledTask)
    (handlerFails : ScheduledTask → Bool) (now : Int) : List ScheduledTask :=
  let due := tasks.filter (fun t => decide (t.executeAt ≤ now))
  let remaining := tasks.filter (fun t => !decide (t.executeAt ≤ now))
  due.foldl (fun ts t => execute_task ts t handlerFails now) remaining

/-- Membership in a dict insertion: an element of the result is an old
element or the inserted task. -/
theorem tasksInsert_mem (ts : List ScheduledTask) (t u : ScheduledTask)
    (h : u ∈ tasksInsert ts t) : u ∈ ts ∨ u = t := by
  unfold tasksInsert at h
  split at h
  · rcases List.mem_map.mp h with ⟨v, hv, heq⟩
    by_cases hc : (v.taskId == t.taskId) = true
    · rw [if_pos hc] at heq
      right
      exact heq.symm
    · rw [if_neg hc] at heq
      left
      rw [← heq]
      exact hv
  · rcases List.mem_append.mp h with h2 | h2
    · left
      exact h2
    · right
      simpa using h2

/-- C8: when a due task's handler raises, the Scheduler re-inserts the task
with `retry_count` incremented and `execute_at = now + 5 * retry_count`
minutes (the new count), but only while `retry_count < max_retries`; once
`retry_count` has reached `max_retries` a further failure leaves the task
out of the queue for good (it was removed before execution and is not
re-inserted), and any task ever re-scheduled satisfies
`retry_count ≤ max_retries`, bounding the retries at `max_retries`. -/
theorem scheduler_retry_backoff (tasks : List ScheduledTask) (task : ScheduledTask)
    (hf : ScheduledTask → Bool) (now : Int)
    (hreg : handlerRegistered task.taskType = true)
    (hfail : hf task = true) :
    (task.retryCount < task.maxRetries →
      execute_task tasks task hf now =
        tasksInsert tasks
          { task with retryCount := task.retryCount + 1,
                      executeAt := now + 60 * (5 * (task.retryCount + 1)) }) ∧
    (task.maxRetries ≤ task.retryCount →
      execute_task tasks task hf now = tasks) ∧
    (task.maxRetries ≤ task.retryCount →
      (∀ u ∈ tasks, u.taskId ≠ task.taskId) →
      ∀ u ∈ execute_task tasks task hf now, u.taskId ≠ task.taskId) ∧
    (∀ u ∈ execute_task tasks task hf now,
      u ∈ tasks ∨ u.retryCount ≤ u.maxRetries) := by
  refine ⟨?_, ?_, ?_, ?_⟩
  · intro hlt
    simp [execute_task, hreg, hfail, hlt]
  · intro hge
    simp [execute_task, hreg, hfail,
      show ¬ task.retryCount < task.maxRetries by omega]
  · intro hge hnone u hu
    have heq : execute_task tasks task hf now = tasks := by
      simp [execute_task, hreg, hfail,
        show ¬ task.retryCount < task.maxRetries by omega]
    rw [heq] at hu
    exact hnone u hu
  · intro u hu
    by_cases hlt : task.retryCount < task.maxRetries
    · have heq : execute_task tasks task hf now =
          tasksInsert tasks
            { task with retryCount := task.retryCount + 1,
                        executeAt := now + 60 * (5 * (task.retryCount + 1)) } := by
        simp [execute_task, hreg, hfail, hlt]
      rw [heq] at hu
      rcases tasksInsert_mem _ _ _ hu with h | h
      · left
        exact h
      · right
        rw [h]
        simp only []
        omega
    · have heq : execute_task tasks task hf now = tasks := by
        simp [execute_task, hreg, hfail, hlt]
      rw [heq] at hu
      left
      exact hu

/-- A failing notification task on its first attempt. -/
def failTask : ScheduledTask :=
  { taskId := "notification_1"
    executeAt := 0
    taskType := "send_notification"
    payload := []
    retryCount := 0
    maxRetries := 3 }

/-- The same task after exhausting its three retries. -/
def spentTask : ScheduledTask :=
  { failTask with retryCount := 3 }

/-- Witness for C8: a first failure at time 1000 re-schedules the task with
`retry_count = 1` at `1000 + 5` minutes; a failure with
`retry_count = max_retries = 3` drops it from an empty queue for good. -/
theorem scheduler_retry_backoff_witness :
    handlerRegistered failTask.taskType = true ∧
    ((failTask.retryCount < failTask.maxRetries →
        execute_task [] failTask (fun _ => true) 1000 =
          tasksInsert []
            { failTask with retryCount := failTask.retryCount + 1,
                            executeAt := 1000 + 60 * (5 * (failTask.retryCount + 1)) }) ∧
      (failTask.maxRetries ≤ failTask.retryCount →
        execute_task [] failTask (fun _ => true) 1000 = []) ∧
      (failTask.maxRetries ≤ failTask.retryCount →
        (∀ u ∈ ([] : List ScheduledTask), u.taskId ≠ failTask.taskId) →
        ∀ u ∈ execute_task [] failTask (fun _ => true) 1000,
          u.taskId ≠ failTask.taskId) ∧
      (∀ u ∈ execute_task [] failTask (fun _ => true) 1000,
        u ∈ ([] : List ScheduledTask) ∨ u.retryCount ≤ u.maxRetries)) ∧
    ((spentTask.retryCount < spentTask.maxRetries →
        execute_task [] spentTask (fun _ => true) 1000 =
          tasksInsert []
            { spentTask with retryCount := spentTask.retryCount + 1,
                             executeAt := 1000 + 60 * (5 * (spentTask.retryCount + 1)) }) ∧
      (spentTask.maxRetries ≤ spentTask.retryCount →
        execute_task [] spentTask (fun _ => true) 1000 = []) ∧
      (spentTask.maxRetries ≤ spentTask.retryCount →
        (∀ u ∈ ([] : List ScheduledTask), u.taskId ≠ spentTask.taskId) →
        ∀ u ∈ execute_task [] spentTask (fun _ => true) 1000,
          u.taskId ≠ spentTask.taskId) ∧
      (∀ u ∈ execute_task [] spentTask (fun _ => true) 1000,
        u ∈ ([] : List ScheduledTask) ∨ u.retryCount ≤ u.maxRetries)) ∧
    execute_task [] failTask (fun _ => true) 1000 =
      [{ taskId := "notification_1", executeAt := 1300,
         taskType := "send_notification", payload := [],
         retryCount := 1, maxRetries := 3 }] ∧
    execute_task [] spentTask (fun _ => true) 1000 = [] :=
  ⟨by decide,
    scheduler_retry_backoff [] failTask (fun _ => true) 1000 (by decide) rfl,
    scheduler_retry_backoff [] spentTask (fun _ => true) 1000 (by decide) rfl,
    by decide, by decide⟩

/-- `NotificationStatus` from `models/notification.py`. -/
inductive NotificationStatus where
  | pending
  | scheduled
  | sent
  | delivered
  | failed
deriving DecidableEq, Repr

/-- `Notification` row from `models/notification.py`, restricted to the
columns `send_notification` / `_send_telegram_message` write. -/
structure Notification where
  targetTelegramId : Int
  notificationType : String
  title : Option String
  message : String
  orderId : Option Nat
  userId : Option Nat
  scheduledAt : Option Int
  sentAt : Option Int
  retryCount : Nat
  errorMessage : Option String
  status : NotificationStatus
deriving DecidableEq, Repr

/-- The rich tracked dispatcher `NotificationService.send_notification`
(`services/notification.py` lines 31-74) together with
`_send_telegram_message` (lines 76-121): persist the record as `Scheduled`
when a schedule time is supplied (truthy) and as `Pending` otherwise; only
in the latter case attempt immediate delivery through the external
transport, marking `Sent`/`sent_at` on success or `Failed` with
`error_message` and `retry_count + 1` on failure.  The external transport
outcome is the `transport` parameter.  Returns the notification store and
the created row. -/
def send_notification_rich (store : List Notification) (telegramId : Int)
    (message : String) (notificationType : String) (title : Option String)
    (orderId userId : Option Nat) (scheduleFor : Option Int)
    (transport : Except String Unit) (now : Int) :
    List Notification × Option Notification :=
  let n0 : Notification :=
    { targetTelegramId := telegramId
      notificationType := notificationType
      title := title
      message := message
      orderId := orderId
      userId := userId
      scheduledAt := scheduleFor
      sentAt := none
      retryCount := 0
      errorMessage := none
      status := if scheduleFor.isSome then .scheduled else .pending }
  if scheduleFor.isSome then
    (store ++ [n0], some n0)
  else
    match transport with
    | .ok () =>
      let n1 := { n0 with status := .sent, sentAt := some now }
      (store ++ [n1], some n1)
    | .error msg =>
      let n1 := { n0 with status := .failed, errorMessage := some msg,
                          retryCount := n0.retryCount + 1 }
      (store ++ [n1], some n1)

/-- The legacy static `NotificationService.send_notification(telegram_id,
message)` (lines 718-721, delegating to `send_user_notification` at lines
703-715): a bare transport call returning a boolean, recording nothing. -/
def send_notification_legacy (store : List Notification)
    (transport : Except String Unit) : List Notification × Bool :=
  (store, match transport with | .ok () => true | .error _ => false)

/-- The two bindings of the name `send_notification` in the
`NotificationService` class body, in source order: the rich tracked method
at line 31, then the legacy two-parameter static wrapper at line 719. -/
inductive SendNotificationDef where
  | richInstance
  | legacyStatic
deriving DecidableEq, Repr

/-- The class body binds `send_notification` twice, in this order. -/
def notificationServiceSendDefs : List SendNotificationDef :=
  [.richInstance, .legacyStatic]

/-- Python executes a class body top to bottom and keeps the LAST binding of
a name: the attribute `NotificationService.send_notification` resolves to
the final element of the definition list. -/
def effectiveSendNotification : Option SendNotificationDef :=
  notificationServiceSendDefs.getLast?

/-- A call to `send_notification` with the dispatcher keyword set.  An
`isSome` field means the keyword was passed at the call site; every
dispatcher call site (the workflow engine, the scheduler handlers, the API
layer) passes at least `telegram_id`, `message` and `notification_type`. -/
structure SendCall where
  telegramId : Int
  message : String
  notificationType : Option String
  title : Option String
  orderId : Option Nat
  userId : Option Nat
  scheduleFor : Option Int
deriving DecidableEq, Repr

/-- Python call semantics of the bound `send_notification` attribute on a
`SendCall`.  The legacy static binding accepts only `(telegram_id, message)`
and raises `TypeError` on any extra keyword; the rich binding requires
`notification_type`.  Returns the resulting notification store on normal
return. -/
def call_send_notification (d : SendNotificationDef) (store : List Notification)
    (c : SendCall) (transport : Except String Unit) (now : Int) :
    Except String (List Notification) :=
  match d with
  | .richInstance =>
    match c.notificationType with
    | none => .error "TypeError: missing required argument notification_type"
    | some nt =>
      .ok (send_notification_rich store c.telegramId c.message nt c.title
        c.orderId c.userId c.scheduleFor transport now).1
  | .legacyStatic =>
    if c.notificationType.isSome || c.title.isSome || c.orderId.isSome ||
        c.userId.isSome || c.scheduleFor.isSome then
      .error "TypeError: unexpected keyword argument"
    else
      .ok store

/-- The status-change call every dispatcher call site makes
(e.g. `_handle_send_notification` in `utils/scheduler.py` lines 127-147). -/
def statusChangeCall : SendCall :=
  { telegramId := 42
    message := "order update"
    notificationType := some "order_confirmed"
    title := some "update"
    orderId := some 7
    userId := some 3
    scheduleFor := none }

/-- C9 (code bug): the class body rebinds `send_notification` to the legacy
two-parameter static wrapper AFTER the rich tracked dispatcher, so the
effective `NotificationService.send_notification` is the legacy one; the
dispatcher call used throughout the codebase (keyword `notification_type`
etc.) therefore raises `TypeError` and persists nothing, while the shadowed
rich method — the behaviour the claim describes — would persist the row as
Scheduled for a future schedule time, or attempt immediate delivery marking
Sent/`sent_at` on success and Failed/`error_message`/`retry_count + 1` on
failure. -/
theorem send_notification_override_bug :
    effectiveSendNotification = some .legacyStatic ∧
    effectiveSendNotification ≠ some .richInstance ∧
    call_send_notification .legacyStatic [] statusChangeCall (.ok ()) 1000 =
      .error "TypeError: unexpected keyword argument" ∧
    call_send_notification .richInstance [] statusChangeCall (.ok ()) 1000 =
      .ok [{ targetTelegramId := 42, notificationType := "order_confirmed",
             title := some "update", message := "order update", orderId := some 7,
             userId := some 3, scheduledAt := none, sentAt := some 1000,
             retryCount := 0, errorMessage := none, status := .sent }] ∧
    call_send_notification .richInstance [] statusChangeCall (.error "network down")
        1000 =
      .ok [{ targetTelegramId := 42, notificationType := "order_confirmed",
             title := some "update", message := "order update", orderId := some 7,
             userId := some 3, scheduledAt := none, sentAt := none,
             retryCount := 1, errorMessage := some "network down",
             status := .failed }] ∧
    call_send_notification .richInstance []
        { statusChangeCall with scheduleFor := some 5000 } (.ok ()) 1000 =
      .ok [{ targetTelegramId := 42, notificationType := "order_confirmed",
             title := some "update", message := "order update", orderId := some 7,
             userId := some 3, scheduledAt := some 5000, sentAt := none,
             retryCount := 0, errorMessage := none, status := .scheduled }] := by
  refine ⟨rfl, by decide, rfl, rfl, rfl, rfl⟩
